import Mathlib

/-!
Shallow embedding of the payment-reconciliation core of the
RealEstateManager Django backend (payments_app, properties_app,
services/flutterwave_service.py, auth_app), together with theorems
settling the claims about it.

Monetary amounts are modelled in kobo (hundredths of a naira), matching
the fixed-point `DecimalField(..., decimal_places=2)` storage of the
source: a stored decimal amount `x.yz` is the integer `100*x + yz`.
Timestamps and dates are natural numbers.
-/

namespace RealEstate

/-- Status choices of `properties_app.models.Land.LAND_STATUS`. -/
inductive LandStatus where
  | available | reservedL | sold | unavailable
deriving DecidableEq, Repr

/-- Status choices of `payments_app.models.LandPurchase.PURCHASE_STATUS`. -/
inductive PurchaseStatus where
  | draft | reservedP | down_payment_paid | in_progress | completedP | cancelledP | defaulted
deriving DecidableEq, Repr

/-- Payment kinds of `payments_app.models.LandPurchase.PAYMENT_TYPES`. -/
inductive PaymentType where
  | full_payment | down_payment | installment | reservation_fee | legal_fee | documentation_fee
deriving DecidableEq, Repr

/-- Status choices of `payments_app.models.LandPayment.PAYMENT_STATUS`.
`expired` is not among the declared choices but is assigned by
`payments_app.tasks.cleanup_old_pending_payments`, so it is included. -/
inductive PaymentStatus where
  | pending | initiatedPay | processingPay | completedPay | failedPay | cancelledPay | expiredPay
deriving DecidableEq, Repr

/-- Status choices of `payments_app.models.PaymentAttempt.ATTEMPT_STATUS`. -/
inductive AttemptStatus where
  | initiatedAt | processingAt | completedAt | failedAt | cancelledAt
deriving DecidableEq, Repr

/-- Division of integers rounding the quotient to the nearest integer with
ties to even, for `b > 0`.  This is the composition, performed by the
source, of Python `Decimal` division with Django's storage quantization of
a `DecimalField(decimal_places=2)` value (`value.quantize(Decimal("0.01"))`
with the default `ROUND_HALF_EVEN`), expressed on kobo-scaled integers. -/
def roundHalfEvenDiv (a b : Int) : Int :=
  let q := Int.ediv a b
  let r := Int.emod a b
  if 2 * r < b then q
  else if b < 2 * r then q + 1
  else if q % 2 = 0 then q else q + 1

/-- `properties_app.models.LandInstallmentPlan`: percentages are stored as
`DecimalField(decimal_places=2)`, modelled in centi-percent
(`30.00%` is `3000`). -/
structure LandInstallmentPlan where
  totalMonths : Nat
  downPaymentPctCenti : Int
  monthlyInterestRateCenti : Int
deriving DecidableEq, Repr

/-- `LandInstallmentPlan.calculate_down_payment`:
`(land_price * self.down_payment_percentage) / 100`, quantized by the
`down_payment_amount` column (2 decimal places). -/
def LandInstallmentPlan.calculate_down_payment (plan : LandInstallmentPlan)
    (landPriceK : Int) : Int :=
  roundHalfEvenDiv (landPriceK * plan.downPaymentPctCenti) 10000

/-- `LandInstallmentPlan.calculate_monthly_payment`: with the interest
branch expressed over exact rationals before kobo quantization, and the
zero-interest branch `principal / self.total_months`. -/
def LandInstallmentPlan.calculate_monthly_payment (plan : LandInstallmentPlan)
    (landPriceK : Int) : Int :=
  let principal : Int := landPriceK - plan.calculate_down_payment landPriceK
  if 0 < plan.monthlyInterestRateCenti then
    let r : ℚ := (plan.monthlyInterestRateCenti : ℚ) / 10000
    let v : ℚ := ((principal : ℚ) * r * (1 + r) ^ plan.totalMonths) /
      ((1 + r) ^ plan.totalMonths - 1)
    roundHalfEvenDiv v.num (v.den : Int)
  else
    roundHalfEvenDiv principal (plan.totalMonths : Int)

/-- `properties_app.models.Land` (the fields the payment flow touches). -/
structure Land where
  lstatus : LandStatus
  totalPriceK : Int
deriving DecidableEq, Repr

/-- `payments_app.models.LandPurchase` (the fields the payment flow touches). -/
structure LandPurchase where
  paymentType : PaymentType
  pstatus : PurchaseStatus
  totalLandPriceK : Int
  downPaymentAmountK : Int
  downPaymentPaid : Bool
  totalInstallments : Nat
  completionDate : Option Nat
  installmentPlan : Option LandInstallmentPlan
deriving DecidableEq, Repr

/-- `LandPurchase.save` (models.py lines 62-65): when an installment plan is
set and `down_payment_amount` is still zero, derive the down payment and
the installment count from the plan. -/
def LandPurchase.applySaveDefaults (p : LandPurchase) : LandPurchase :=
  match p.installmentPlan with
  | some plan =>
      if p.downPaymentAmountK = 0 then
        { p with downPaymentAmountK := plan.calculate_down_payment p.totalLandPriceK,
                 totalInstallments := plan.totalMonths }
      else p
  | none => p

/-- The `data` object of a Flutterwave webhook event
(`{tx_ref, id, amount, status, processor_response, payment_type, ...}`);
fields are optional because the handlers read them with `dict.get`. -/
structure WebhookEventData where
  txRef : Option String
  transactionId : Option Int
  amountK : Option Int
  paymentTypeStr : Option String
  processorResponse : Option String
deriving DecidableEq, Repr

/-- The successful payload of `FlutterwaveService.verify_payment`. -/
structure VerifySuccessData where
  transactionId : Int
  txRef : String
  amountK : Int
  providerStatus : String
  paymentTypeStr : String
deriving DecidableEq, Repr

/-- Opaque gateway response blob stored on a payment
(`flutterwave_response` receives the webhook `data` dict on the webhook
path and the verification result dict on the verify path). -/
inductive GatewayBlob where
  | fromWebhook (d : WebhookEventData)
  | fromVerify (v : VerifySuccessData)
deriving DecidableEq, Repr

/-- `payments_app.models.PaymentAttempt` (the fields the payment flow touches). -/
structure PaymentAttempt where
  attemptNumber : Nat
  astatus : AttemptStatus
  flutterwaveTxRef : String
  isFailed : Bool
  errorMessage : String
  gatewayResponse : Option WebhookEventData
  processingStartedAt : Option Nat
  completedAt : Option Nat
deriving DecidableEq, Repr

/-- `payments_app.models.LandPayment` (the fields the payment flow touches).
`attempts` is the reverse relation `payment.attempts`, newest first
(`Meta.ordering = ["-created_at"]`). -/
structure LandPayment where
  paymentReference : String
  amountK : Int
  paymentType : PaymentType
  paymentMethod : String
  status : PaymentStatus
  isInstallment : Bool
  installmentNumber : Option Nat
  paidDate : Option Nat
  flutterwaveTxRef : String
  flutterwaveTransactionId : Option Int
  flutterwaveResponse : Option GatewayBlob
  attempts : List PaymentAttempt
deriving DecidableEq, Repr

/-- `payments_app.models.PaymentSchedule` (one installment row). -/
structure PaymentSchedule where
  installmentNumber : Nat
  dueDate : Nat
  amountK : Int
  isPaid : Bool
  paidDate : Option Nat
deriving DecidableEq, Repr

/-- `LandPayment.save`: `flutterwave_tx_ref` generated as
`f"land_{self.payment_reference}_{int(timezone.now().timestamp())}"`. -/
def payment_tx_ref (paymentReference : String) (timestamp : Nat) : String :=
  "land_" ++ paymentReference ++ "_" ++ toString timestamp

/-- `PaymentAttempt.save`: `flutterwave_tx_ref` generated as
`f"myhouse_attempt_{timestamp}_{uuid.uuid4().hex[:8]}"`. -/
def attempt_tx_ref (timestamp : Nat) (randomHex : String) : String :=
  "myhouse_attempt_" ++ toString timestamp ++ "_" ++ randomHex

/-- `PaymentAttempt.save` (models.py lines 249-255): auto-set the failure
flag and completion timestamp from the status on every save. -/
def PaymentAttempt.applySave (now : Nat) (a : PaymentAttempt) : PaymentAttempt :=
  if a.astatus = .failedAt ∨ a.astatus = .cancelledAt then
    { a with isFailed := true, completedAt := some now }
  else if a.astatus = .completedAt then
    { a with isFailed := false, completedAt := some now }
  else a

/-- `PaymentAttempt.mark_processing`. -/
def PaymentAttempt.mark_processing (now : Nat) (a : PaymentAttempt) : PaymentAttempt :=
  PaymentAttempt.applySave now
    { a with astatus := .processingAt, processingStartedAt := some now }

/-- `PaymentAttempt.mark_completed`. -/
def PaymentAttempt.mark_completed (now : Nat) (gatewayData : Option WebhookEventData)
    (a : PaymentAttempt) : PaymentAttempt :=
  PaymentAttempt.applySave now
    { a with astatus := .completedAt, completedAt := some now,
             gatewayResponse := gatewayData <|> a.gatewayResponse }

/-- `PaymentAttempt.mark_failed`. -/
def PaymentAttempt.mark_failed (now : Nat) (errorMessage : String)
    (gatewayData : Option WebhookEventData) (a : PaymentAttempt) : PaymentAttempt :=
  PaymentAttempt.applySave now
    { a with astatus := .failedAt, isFailed := true, errorMessage := errorMessage,
             completedAt := some now,
             gatewayResponse := gatewayData <|> a.gatewayResponse }

/-- `LandPayment.attempt_count`. -/
def LandPayment.attempt_count (p : LandPayment) : Nat := p.attempts.length

/-- `LandPayment.create_new_attempt` (models.py lines 165-173): creates a
`PaymentAttempt` with `attempt_number = self.attempt_count + 1` and status
`initiated`; no precondition on existing attempts is checked. -/
def LandPayment.create_new_attempt (now : Nat) (randomHex : String)
    (p : LandPayment) : PaymentAttempt × LandPayment :=
  let attemptNumber := p.attempt_count + 1
  let a : PaymentAttempt := PaymentAttempt.applySave now
    { attemptNumber := attemptNumber
      astatus := .initiatedAt
      flutterwaveTxRef := attempt_tx_ref now randomHex
      isFailed := false
      errorMessage := ""
      gatewayResponse := none
      processingStartedAt := none
      completedAt := none }
  (a, { p with attempts := a :: p.attempts })

/-- An attempt is non-terminal when `initiated` or `processing` (spec §3). -/
def PaymentAttempt.nonTerminal (a : PaymentAttempt) : Bool :=
  a.astatus = .initiatedAt ∨ a.astatus = .processingAt

/-!
## Webhook handling (`services/flutterwave_service.py`)
-/

/-- The webhook body `{event: ..., data: {...}}`; fields are optional since
`_validate_webhook_data` checks key presence explicitly. -/
structure WebhookBody where
  event : Option String
  data : Option WebhookEventData
deriving DecidableEq, Repr

/-- Persistent store visible to the webhook handlers, with a counter of
settlement side-effect dispatches (`_trigger_secure_post_payment_actions`:
one batch of receipt, confirmation, rollup and sales-team task enqueues). -/
structure WebhookStore where
  payments : List LandPayment
  settlementEvents : Nat
deriving DecidableEq, Repr

/-- `FlutterwaveService.verify_webhook_signature` (lines 351-372): reject a
missing (`None` or empty, both falsy) signature, compute HMAC-SHA256 of the
compact JSON dump of the body keyed by the webhook hash, and compare with
`hmac.compare_digest` (constant-time; functionally, string equality).
The HMAC primitive and the canonical JSON encoding are external library
collaborators, taken as function parameters. -/
def verify_webhook_signature (hmacSha256 : String → String → String)
    (webhookHash : String) (canonicalJson : WebhookBody → String)
    (body : WebhookBody) (signature : Option String) : Bool :=
  match signature with
  | none => false
  | some s => if s = "" then false else hmacSha256 webhookHash (canonicalJson body) == s

/-- `FlutterwaveService._validate_webhook_data`: `event` and `data` keys
must be present, and `data` must contain `tx_ref`. -/
def validate_webhook_data (body : WebhookBody) : Bool :=
  body.event.isSome && match body.data with
    | none => false
    | some d => d.txRef.isSome

/-- Find a payment by the unique `flutterwave_tx_ref` column
(`LandPayment.objects.get(flutterwave_tx_ref=tx_ref)`). -/
def findPaymentByTxRef (txRef : Option String) (payments : List LandPayment) :
    Option LandPayment :=
  payments.find? (fun p => txRef = some p.flutterwaveTxRef)

/-- Update the first list element satisfying `f` by `g` (the Django pattern
`queryset.filter(...).first()` followed by a save of that row). -/
def updateFirst (f : α → Bool) (g : α → α) : List α → List α
  | [] => []
  | x :: xs => if f x then g x :: xs else x :: updateFirst f g xs

/-- Replace the payment row keyed by `flutterwave_tx_ref` (a unique column)
with its updated version, modelling the ORM row save. -/
def savePayment (p' : LandPayment) (key : String) (payments : List LandPayment) :
    List LandPayment :=
  payments.map (fun q => if q.flutterwaveTxRef = key then p' else q)

/-- `FlutterwaveService._handle_successful_payment` (lines 412-441): look the
payment up by `tx_ref`; on `DoesNotExist` return `False`; otherwise mark the
first attempt with that `tx_ref` completed, set the payment `completed` with
paid date and gateway data, trigger the post-payment actions, return `True`.
No check of the payment's current status is performed. -/
def handle_successful_payment (d : WebhookEventData) (now : Nat)
    (st : WebhookStore) : Bool × WebhookStore :=
  match findPaymentByTxRef d.txRef st.payments with
  | none => (false, st)
  | some p =>
      let attempts' := updateFirst (fun a => d.txRef = some a.flutterwaveTxRef)
        (PaymentAttempt.mark_completed now (some d)) p.attempts
      let p' : LandPayment :=
        { p with attempts := attempts'
                 status := .completedPay
                 paidDate := some now
                 flutterwaveTransactionId := d.transactionId
                 flutterwaveResponse := some (.fromWebhook d)
                 paymentMethod := d.paymentTypeStr.getD "" }
      (true, { payments := savePayment p' p.flutterwaveTxRef st.payments
               settlementEvents := st.settlementEvents + 1 })

/-- `FlutterwaveService._handle_failed_payment` (lines 443-466): look the
payment up by `tx_ref`; on `DoesNotExist` return `False`; otherwise mark the
first attempt with that `tx_ref` failed and set the payment `failed`.
No post-payment actions are triggered. -/
def handle_failed_payment (d : WebhookEventData) (now : Nat)
    (st : WebhookStore) : Bool × WebhookStore :=
  match findPaymentByTxRef d.txRef st.payments with
  | none => (false, st)
  | some p =>
      let attempts' := updateFirst (fun a => d.txRef = some a.flutterwaveTxRef)
        (PaymentAttempt.mark_failed now (d.processorResponse.getD "Payment failed") (some d))
        p.attempts
      let p' : LandPayment :=
        { p with attempts := attempts'
                 status := .failedPay
                 flutterwaveResponse := some (.fromWebhook d) }
      (true, { st with payments := savePayment p' p.flutterwaveTxRef st.payments })

/-- `FlutterwaveService.handle_webhook` (lines 312-349): verify the
signature first and return `False` on failure with no state change, then
validate the body structure, then dispatch on the event type.  The rate
limiter `_check_webhook_rate_limit` is a placeholder that always allows.
`transfer.*` and unhandled events are acknowledged without state change. -/
def handle_webhook (hmacSha256 : String → String → String) (webhookHash : String)
    (canonicalJson : WebhookBody → String) (body : WebhookBody)
    (signature : Option String) (now : Nat) (st : WebhookStore) :
    Bool × WebhookStore :=
  if ¬ verify_webhook_signature hmacSha256 webhookHash canonicalJson body signature then
    (false, st)
  else if ¬ validate_webhook_data body then
    (false, st)
  else
    let d := body.data.getD ⟨none, none, none, none, none⟩
    if body.event = some "charge.completed" then
      handle_successful_payment d now st
    else if body.event = some "charge.failed" then
      handle_failed_payment d now st
    else if body.event = some "transfer.completed" ∨ body.event = some "transfer.reversed" then
      (true, st)
    else
      (true, st)

/-!
## Redirect verification and installment views (`payments_app/views.py`)
-/

/-- Outcome of `FlutterwaveService.verify_payment` as consumed by the view:
either a failure dict (`success == False`) or the verification data. -/
inductive GatewayVerify where
  | failure (error code : String)
  | ok (v : VerifySuccessData)
deriving DecidableEq, Repr

/-- The records touched by `verify_land_payment`: the payment being
verified, its purchase, the land, the purchase's installment schedule, and
the settlement side-effect counter (`trigger_land_post_payment_actions`). -/
structure VerifyState where
  payment : LandPayment
  purchase : LandPurchase
  land : Land
  schedule : List PaymentSchedule
  settlementEvents : Nat
deriving DecidableEq, Repr

/-- The HTTP-level outcome of `verify_land_payment`. -/
inductive VerifyOutcome where
  | completedOk
  | verificationFailed
  | gatewayError (code : String)
deriving DecidableEq, Repr

/-- `generate_installment_schedule` (views.py lines 360-376): one
`PaymentSchedule` row per installment number `1..total_installments`, due
every 30 days, each with the plan's monthly amount. -/
def generate_installment_schedule (today : Nat) (purchase : LandPurchase) :
    List PaymentSchedule :=
  match purchase.installmentPlan with
  | none => []
  | some plan =>
      let monthlyAmount := plan.calculate_monthly_payment purchase.totalLandPriceK
      (List.range purchase.totalInstallments).map (fun i =>
        { installmentNumber := i + 1
          dueDate := today + 30 * (i + 1)
          amountK := monthlyAmount
          isPaid := false
          paidDate := none })

/-- `verify_land_payment` (views.py lines 144-229): call the gateway verify;
on provider status `successful` set the payment `completed`, advance the
purchase by payment type (`full_payment` completes the purchase and sells
the land; `down_payment` marks the down payment paid and generates the
installment schedule; `reservation_fee` reserves), and trigger the
post-payment actions; on any other provider status set the payment
`failed`; on a gateway failure change nothing.  The payment's current
status is never consulted. -/
def verify_land_payment (g : GatewayVerify) (today now : Nat)
    (s : VerifyState) : VerifyOutcome × VerifyState :=
  match g with
  | .failure _ code => (.gatewayError code, s)
  | .ok v =>
      if v.providerStatus = "successful" then
        let payment' : LandPayment :=
          { s.payment with status := .completedPay
                           paidDate := some now
                           paymentMethod := v.paymentTypeStr
                           flutterwaveResponse := some (.fromVerify v) }
        let (purchase', land', schedule') :=
          if s.payment.paymentType = .full_payment then
            ({ s.purchase with pstatus := .completedP, completionDate := some today },
             { s.land with lstatus := .sold }, s.schedule)
          else if s.payment.paymentType = .down_payment then
            let p' := { s.purchase with pstatus := .down_payment_paid, downPaymentPaid := true }
            (p', s.land, s.schedule ++ generate_installment_schedule today p')
          else if s.payment.paymentType = .reservation_fee then
            ({ s.purchase with pstatus := .reservedP }, s.land, s.schedule)
          else
            (s.purchase, s.land, s.schedule)
        (.completedOk,
         { payment := payment', purchase := purchase', land := land',
           schedule := schedule', settlementEvents := s.settlementEvents + 1 })
      else
        (.verificationFailed,
         { s with payment := { s.payment with status := .failedPay,
                                              flutterwaveResponse := some (.fromVerify v) } })

/-- Amounts of the completed payments of a purchase summed
(`filter(status="completed").aggregate(Sum("amount"))`, with `None`
coalesced to `0`). -/
def total_completed_amount (payments : List LandPayment) : Int :=
  ((payments.filter (fun p => p.status = .completedPay)).map (fun p => p.amountK)).sum

/-- `payments_app.tasks.update_land_purchase_status` (lines 111-159): the
purchase-level rollup.  Sum the completed payments; advance the purchase by
its payment type against the plan thresholds (an `elif` chain); then, when
an installment plan is set, the down payment is paid and the total reaches
the full price, complete the purchase and sell the land. -/
def update_land_purchase_status (today : Nat) (payments : List LandPayment)
    (p : LandPurchase) (land : Land) : LandPurchase × Land :=
  let totalPaid := total_completed_amount payments
  let step1 : LandPurchase × Land :=
    if p.paymentType = .full_payment ∧ p.totalLandPriceK ≤ totalPaid then
      ({ p with pstatus := .completedP, completionDate := some today },
       { land with lstatus := .sold })
    else if p.paymentType = .down_payment ∧ p.downPaymentAmountK ≤ totalPaid then
      ({ p with pstatus := .down_payment_paid, downPaymentPaid := true }, land)
    else if p.paymentType = .reservation_fee ∧ 0 < totalPaid then
      ({ p with pstatus := .reservedP }, land)
    else (p, land)
  let p1 := step1.1
  if p1.installmentPlan.isSome ∧ p1.downPaymentPaid ∧ p1.totalLandPriceK ≤ totalPaid then
    ({ p1 with pstatus := .completedP, completionDate := some today },
     { step1.2 with lstatus := .sold })
  else step1

/-- The HTTP-level outcome of `pay_installment`. -/
inductive PayInstallmentOutcome where
  | downPaymentRequired
  | alreadyPaid
  | initiatedOk (payment : LandPayment)
  | gatewayFailed (payment : LandPayment)
deriving DecidableEq, Repr

/-- `pay_installment` (views.py lines 270-357): refuse when the down payment
is unpaid or when the schedule row's `is_paid` flag is set; otherwise create
an installment `LandPayment` for the row's amount and initialize it with the
gateway (`initiated` on success, `failed` otherwise).  The row's `is_paid`
flag is the only completed-installment check performed. -/
def pay_installment (purchase : LandPurchase) (row : PaymentSchedule)
    (gatewayOk : Bool) (paymentReference : String) (txTimestamp : Nat) :
    PayInstallmentOutcome :=
  if ¬ purchase.downPaymentPaid then .downPaymentRequired
  else if row.isPaid then .alreadyPaid
  else
    let payment : LandPayment :=
      { paymentReference := paymentReference
        amountK := row.amountK
        paymentType := .installment
        paymentMethod := ""
        status := .pending
        isInstallment := true
        installmentNumber := some row.installmentNumber
        paidDate := none
        flutterwaveTxRef := payment_tx_ref paymentReference txTimestamp
        flutterwaveTransactionId := none
        flutterwaveResponse := none
        attempts := [] }
    if gatewayOk then .initiatedOk { payment with status := .initiatedPay }
    else .gatewayFailed { payment with status := .failedPay }

/-!
## Charge initiation (`FlutterwaveService.initialize_payment` and
`initiate_land_payment`)
-/

/-- The `amount` value of a charge-initiation request: either a value that
`float(...)` parses, or one it rejects with `ValueError`/`TypeError`. -/
inductive AmountValue where
  | num (q : ℚ)
  | unparseable
deriving DecidableEq, Repr

/-- The `payment_data` dict passed to `initialize_payment`.  `Option`
distinguishes an absent key (Python `KeyError` on subscript access) from a
present value; `tx_ref` and `customer_phone` are read with `dict.get`. -/
structure PaymentData where
  txRef : Option String
  amount : Option AmountValue
  customerEmail : Option String
  customerName : Option String
  customerPhone : Option String
  redirectUrl : Option String
deriving DecidableEq, Repr

/-- Result codes of `initialize_payment`. -/
inductive InitCode where
  | validation_error
  | service_unavailable
  | gatewayDeclined (statusCode : String)
deriving DecidableEq, Repr

/-- Result of `initialize_payment`: success carries the payment link data,
failure carries the machine-readable code. -/
inductive InitResult where
  | okInit (paymentLink flwRef : String)
  | errInit (code : InitCode)
deriving DecidableEq, Repr

/-- Response of the outbound `POST /payments` call
(`_make_secure_request` + JSON decode), as consumed by the caller. -/
inductive GatewayInitResponse where
  | hosted (link flwRef : String)
  | declined (message statusCode : String)
  | transportFailure
deriving DecidableEq, Repr

/-- `FlutterwaveService.initialize_payment` (lines 144-229) with the
outbound network call as a parameter; the second component records whether
that call was made.  The `try` body raises `ValueError` (returned as
`validation_error`) from the explicit validators, and any other exception —
including `KeyError` from a subscript on an absent required key — is
returned as `service_unavailable`.  Validation order follows the source:
`tx_ref`, amount (`_validate_input_amount`: positive and at most the
100,000,000 ceiling), customer fields (`_sanitize_customer_data`: email and
name non-empty, email contains `@`), then the payload construction reads
`redirect_url`, and only then is the request sent. -/
def initialize_payment (gateway : GatewayInitResponse) (pd : PaymentData) :
    InitResult × Bool :=
  if pd.txRef = none ∨ pd.txRef = some "" then
    (.errInit .validation_error, false)
  else
    match pd.amount with
    | none => (.errInit .service_unavailable, false)
    | some .unparseable => (.errInit .validation_error, false)
    | some (.num q) =>
        if q ≤ 0 then (.errInit .validation_error, false)
        else if 100000000 < q then (.errInit .validation_error, false)
        else
          match pd.customerEmail with
          | none => (.errInit .service_unavailable, false)
          | some email =>
              match pd.customerName with
              | none => (.errInit .service_unavailable, false)
              | some name =>
                  if email = "" ∨ name = "" then (.errInit .validation_error, false)
                  else if ¬ email.data.contains '@' then (.errInit .validation_error, false)
                  else
                    match pd.redirectUrl with
                    | none => (.errInit .service_unavailable, false)
                    | some _ =>
                        match gateway with
                        | .hosted link flwRef => (.okInit link flwRef, true)
                        | .declined _ code => (.errInit (.gatewayDeclined code), true)
                        | .transportFailure => (.errInit .service_unavailable, true)

/-- The records created by `initiate_land_payment` (views.py lines 69-108):
a `LandPayment` whose `flutterwave_tx_ref` is generated by
`LandPayment.save`, a first `PaymentAttempt` whose own reference is
generated by `PaymentAttempt.save`, and the `tx_ref` placed in the gateway
payload — which is the attempt's reference (line 97). -/
structure InitiateRecords where
  payment : LandPayment
  attempt : PaymentAttempt
  gatewayTxRef : String
deriving DecidableEq, Repr

/-- `initiate_land_payment` record creation (views.py lines 69-108). -/
def initiate_land_payment_records (paymentReference : String)
    (paymentTs attemptTs : Nat) (attemptHex : String) (amountK : Int)
    (paymentType : PaymentType) : InitiateRecords :=
  let attempt : PaymentAttempt :=
    { attemptNumber := 1
      astatus := .initiatedAt
      flutterwaveTxRef := attempt_tx_ref attemptTs attemptHex
      isFailed := false
      errorMessage := ""
      gatewayResponse := none
      processingStartedAt := none
      completedAt := none }
  let payment : LandPayment :=
    { paymentReference := paymentReference
      amountK := amountK
      paymentType := paymentType
      paymentMethod := ""
      status := .pending
      isInstallment := false
      installmentNumber := none
      paidDate := none
      flutterwaveTxRef := payment_tx_ref paymentReference paymentTs
      flutterwaveTransactionId := none
      flutterwaveResponse := none
      attempts := [attempt] }
  { payment := payment, attempt := attempt,
    gatewayTxRef := attempt.flutterwaveTxRef }

/-!
## OTP second factor (`auth_app`)
-/

/-- A `auth_app.models.TwoFactorAuth` row.  Times are minutes. -/
structure TwoFactorAuth where
  otp : String
  createdAt : Nat
  expiresAt : Nat
  isUsed : Bool
  attempts : Nat
deriving DecidableEq, Repr

/-- `TwoFactorService.generate_otp` row creation: a fresh unused code with
`expires_at = timezone.now() + timedelta(minutes=10)`. -/
def generate_otp_record (code : String) (issuedAt : Nat) : TwoFactorAuth :=
  { otp := code, createdAt := issuedAt, expiresAt := issuedAt + 10,
    isUsed := false, attempts := 0 }

/-- Failure taxonomy of OTP verification (spec §4.5). -/
inductive OtpResult where
  | successOtp
  | expiredOtp
  | alreadyUsed
  | attemptsExceeded
  | mismatch
deriving DecidableEq, Repr

/-- Modelled from the spec: `TwoFactorService.verify_otp` is called by
`auth_app.views.verify_2fa` but its definition is absent from the sources;
modelled from spec §4.5: "On verify: fails with `Expired` if past expiry,
`AlreadyUsed` if previously consumed, `AttemptsExceeded` after a configured
number of wrong guesses (increment a counter on every failed compare),
`Mismatch` otherwise; success marks the code used".  Expiry uses the
model's `is_expired` (`timezone.now() > self.expires_at`); the attempt
counter uses the model's `increment_attempts`. -/
def verify_otp (now maxAttempts : Nat) (rec : TwoFactorAuth)
    (supplied : String) : OtpResult × TwoFactorAuth :=
  if rec.expiresAt < now then (.expiredOtp, rec)
  else if rec.isUsed then (.alreadyUsed, rec)
  else if maxAttempts ≤ rec.attempts then (.attemptsExceeded, rec)
  else if rec.otp = supplied then (.successOtp, { rec with isUsed := true })
  else (.mismatch, { rec with attempts := rec.attempts + 1 })

/-- The HTTP-level outcome of `verify_2fa`: session tokens or an error. -/
inductive TwoFaOutcome where
  | sessionIssued
  | rejected (r : OtpResult)
deriving DecidableEq, Repr

/-- `auth_app.views.verify_2fa` (lines 70-106): run the verification and
issue JWT tokens exactly when it reports validity. -/
def verify_2fa (now maxAttempts : Nat) (rec : TwoFactorAuth)
    (supplied : String) : TwoFaOutcome × TwoFactorAuth :=
  let (r, rec') := verify_otp now maxAttempts rec supplied
  (if r = .successOtp then .sessionIssued else .rejected r, rec')

/-!
## Concrete scenario states used by counterexamples and witnesses
-/

/-- A pending first attempt, as `initiate_land_payment` creates it. -/
def inflightAttempt : PaymentAttempt :=
  { attemptNumber := 1
    astatus := .initiatedAt
    flutterwaveTxRef := attempt_tx_ref 1 "deadbeef"
    isFailed := false
    errorMessage := ""
    gatewayResponse := none
    processingStartedAt := none
    completedAt := none }

/-- A payment that already has one in-flight (non-terminal) attempt. -/
def paymentWithInflightAttempt : LandPayment :=
  { paymentReference := "LAND-PAY-A"
    amountK := 5000000000
    paymentType := .full_payment
    paymentMethod := ""
    status := .processingPay
    isInstallment := false
    installmentNumber := none
    paidDate := none
    flutterwaveTxRef := payment_tx_ref "LAND-PAY-A" 1
    flutterwaveTransactionId := none
    flutterwaveResponse := none
    attempts := [inflightAttempt] }

/-- A payment already settled as `completed` (terminal), with the recorded
paid date and transaction id of its first settlement. -/
def completedPaymentRecord : LandPayment :=
  { paymentReference := "LAND-PAY-1"
    amountK := 5000000000
    paymentType := .full_payment
    paymentMethod := "card"
    status := .completedPay
    isInstallment := false
    installmentNumber := none
    paidDate := some 5
    flutterwaveTxRef := "test_ref_123"
    flutterwaveTransactionId := some 9
    flutterwaveResponse := none
    attempts := [] }

/-- A store in which that payment has settled exactly once (one settlement
side-effect batch already dispatched). -/
def settledOnceStore : WebhookStore :=
  { payments := [completedPaymentRecord], settlementEvents := 1 }

/-- The webhook event data for the same transaction reference arriving
again. -/
def repeatWebhookData : WebhookEventData :=
  { txRef := some "test_ref_123"
    transactionId := some 9
    amountK := some 5000000000
    paymentTypeStr := some "card"
    processorResponse := none }

/-- The 6-month, 30%-down, zero-interest installment plan of the scenario
(`LandInstallmentPlan(total_months=6, down_payment_percentage=30.00)`). -/
def sixMonthPlan : LandInstallmentPlan :=
  { totalMonths := 6, downPaymentPctCenti := 3000, monthlyInterestRateCenti := 0 }

/-- A purchase on the 6-month plan over a 50,000,000 land price, with the
down payment and installment count derived by `LandPurchase.save`. -/
def downPaymentPurchase : LandPurchase :=
  LandPurchase.applySaveDefaults
    { paymentType := .down_payment, pstatus := .draft, totalLandPriceK := 5000000000,
      downPaymentAmountK := 0, downPaymentPaid := false, totalInstallments := 0,
      completionDate := none, installmentPlan := some sixMonthPlan }

/-- An available land parcel priced at 50,000,000. -/
def availableLand : Land := { lstatus := .available, totalPriceK := 5000000000 }

/-- A completed-payment set totalling the full 50,000,000 price. -/
def fullyPaidPayments : List LandPayment :=
  [{ paymentReference := "LAND-PAY-F"
     amountK := 5000000000
     paymentType := .down_payment
     paymentMethod := "card"
     status := .completedPay
     isInstallment := false
     installmentNumber := none
     paidDate := some 6
     flutterwaveTxRef := payment_tx_ref "LAND-PAY-F" 6
     flutterwaveTransactionId := some 11
     flutterwaveResponse := none
     attempts := [] }]

/-- The 15,000,000 down-payment Payment of the scenario, mid-verification. -/
def scenarioDownPayment : LandPayment :=
  { paymentReference := "LAND-PAY-D"
    amountK := 1500000000
    paymentType := .down_payment
    paymentMethod := ""
    status := .processingPay
    isInstallment := false
    installmentNumber := none
    paidDate := none
    flutterwaveTxRef := payment_tx_ref "LAND-PAY-D" 3
    flutterwaveTransactionId := none
    flutterwaveResponse := none
    attempts := [] }

/-- The verify-view state before the down payment settles: no schedule
rows yet, no settlement side effects yet. -/
def scenarioVerifyState : VerifyState :=
  { payment := scenarioDownPayment
    purchase := downPaymentPurchase
    land := availableLand
    schedule := []
    settlementEvents := 0 }

/-- The gateway verification payload reporting the down payment charge as
successful. -/
def scenarioVerifyData : VerifySuccessData :=
  { transactionId := 21
    txRef := payment_tx_ref "LAND-PAY-D" 3
    amountK := 1500000000
    providerStatus := "successful"
    paymentTypeStr := "card" }

/-- The verify-view state after the scenario down payment settles. -/
def scenarioSettled : VerifyState :=
  (verify_land_payment (.ok scenarioVerifyData) 10 10 scenarioVerifyState).2

/-- A purchase in the installment stage: down payment settled. -/
def paidPurchase : LandPurchase :=
  { paymentType := .down_payment, pstatus := .down_payment_paid,
    totalLandPriceK := 5000000000, downPaymentAmountK := 1500000000,
    downPaymentPaid := true, totalInstallments := 6,
    completionDate := none, installmentPlan := some sixMonthPlan }

/-- The first installment's schedule row, not yet paid. -/
def firstInstallmentRow : PaymentSchedule :=
  { installmentNumber := 1, dueDate := 40, amountK := 583333333,
    isPaid := false, paidDate := none }

/-- Extract the created payment from a successful `pay_installment` call. -/
def extractInitiated : PayInstallmentOutcome → Option LandPayment
  | .initiatedOk p => some p
  | _ => none

/-- Settle an installment payment through the redirect-verify path: the
gateway reports the charge successful and `verify_land_payment` runs on
the payment with the given schedule. -/
def settleInstallmentViaVerify (p : LandPayment) (sched : List PaymentSchedule) :
    VerifyState :=
  (verify_land_payment
    (.ok { transactionId := 31, txRef := p.flutterwaveTxRef, amountK := p.amountK,
           providerStatus := "successful", paymentTypeStr := "card" })
    50 50
    { payment := p, purchase := paidPurchase, land := availableLand,
      schedule := sched, settlementEvents := 0 }).2

/-- Pay installment 1, settle it, then pay installment 1 again against the
post-settlement schedule and settle that too; returns the two settled
payments and the final schedule. -/
def doubleInstallmentTrace : Option (LandPayment × LandPayment × List PaymentSchedule) := do
  let p1 ← extractInitiated (pay_installment paidPurchase firstInstallmentRow true "LAND-PAY-I1" 61)
  let s1 := settleInstallmentViaVerify p1 [firstInstallmentRow]
  let row ← s1.schedule.find? (fun r => r.installmentNumber = 1)
  let p2 ← extractInitiated (pay_installment paidPurchase row true "LAND-PAY-I2" 62)
  let s2 := settleInstallmentViaVerify p2 s1.schedule
  some (s1.payment, s2.payment, s2.schedule)

/-!
## Theorems
-/

/-- C3: every webhook call validates the signature first — the expected
value is the HMAC of the canonical JSON encoding of the body under the
shared secret, a missing (absent or empty) signature never validates, and
the comparison is equality of the supplied signature with that HMAC (the
source uses `hmac.compare_digest`, whose functional content is equality) —
and whenever the signature does not validate, `handle_webhook` returns
failure and the store, hence every Payment record, is unchanged. -/
theorem webhook_signature_validated_first_and_rejection_pure
    (hmacSha256 : String → String → String) (webhookHash : String)
    (canonicalJson : WebhookBody → String) :
    (∀ (body : WebhookBody) (signature : Option String) (now : Nat) (st : WebhookStore),
      verify_webhook_signature hmacSha256 webhookHash canonicalJson body signature = false →
      handle_webhook hmacSha256 webhookHash canonicalJson body signature now st = (false, st)) ∧
    (∀ (body : WebhookBody) (signature : Option String),
      verify_webhook_signature hmacSha256 webhookHash canonicalJson body signature = true ↔
      ∃ s, signature = some s ∧ s ≠ "" ∧ hmacSha256 webhookHash (canonicalJson body) = s) := by
  constructor
  · intro body signature now st hsig
    simp [handle_webhook, hsig]
  · intro body signature
    cases signature with
    | none => simp [verify_webhook_signature]
    | some s =>
        by_cases hs : s = ""
        · subst hs; simp [verify_webhook_signature]
        · simp [verify_webhook_signature, hs]

/-- C3 witness: a concrete mismatched signature is rejected with the store
unchanged. -/
theorem webhook_signature_validated_first_and_rejection_pure_witness :
    handle_webhook (fun _ _ => "expected") "hash" (fun _ => "{}")
      { event := some "charge.completed",
        data := some { txRef := some "t", transactionId := none, amountK := none,
                       paymentTypeStr := none, processorResponse := none } }
      (some "supplied") 7 { payments := [], settlementEvents := 0 } =
      (false, { payments := [], settlementEvents := 0 }) :=
  (webhook_signature_validated_first_and_rejection_pure
      (fun _ _ => "expected") "hash" (fun _ => "{}")).1
    _ (some "supplied") 7 _ (by decide)

/-- C9: OTP verification fails with `Expired` past expiry (in particular a
code issued at `t0` with 10-minute expiry fails at `t0 + 11`), with
`AlreadyUsed` for a consumed code, with `AttemptsExceeded` once the failure
counter reaches the configured bound even before expiry, and with
`Mismatch` (incrementing the counter) otherwise; only success marks the
code used, and `verify_2fa` issues a session credential exactly on
success. -/
theorem otp_verification_failure_taxonomy
    (now maxAttempts : Nat) (rec : TwoFactorAuth) (supplied : String) :
    (∀ code t0, t0 + 10 < now →
      verify_otp now maxAttempts (generate_otp_record code t0) supplied =
        (.expiredOtp, generate_otp_record code t0)) ∧
    (rec.expiresAt < now → verify_otp now maxAttempts rec supplied = (.expiredOtp, rec)) ∧
    (¬ rec.expiresAt < now → rec.isUsed = true →
      verify_otp now maxAttempts rec supplied = (.alreadyUsed, rec)) ∧
    (¬ rec.expiresAt < now → rec.isUsed = false → maxAttempts ≤ rec.attempts →
      verify_otp now maxAttempts rec supplied = (.attemptsExceeded, rec)) ∧
    (¬ rec.expiresAt < now → rec.isUsed = false → rec.attempts < maxAttempts →
      rec.otp ≠ supplied →
      verify_otp now maxAttempts rec supplied =
        (.mismatch, { rec with attempts := rec.attempts + 1 })) ∧
    (¬ rec.expiresAt < now → rec.isUsed = false → rec.attempts < maxAttempts →
      rec.otp = supplied →
      verify_otp now maxAttempts rec supplied = (.successOtp, { rec with isUsed := true })) ∧
    ((verify_2fa now maxAttempts rec supplied).1 = .sessionIssued ↔
      (verify_otp now maxAttempts rec supplied).1 = .successOtp) := by
  refine ⟨?_, ?_, ?_, ?_, ?_, ?_, ?_⟩
  · intro code t0 h
    simp [verify_otp, generate_otp_record, h]
  · intro h; simp [verify_otp, h]
  · intro h hused; simp [verify_otp, h, hused]
  · intro h hused hatt; simp [verify_otp, h, hused, Nat.not_lt.mpr hatt, hatt]
  · intro h hused hatt hne
    simp [verify_otp, h, hused, Nat.not_le.mpr hatt, hne]
  · intro h hused hatt heq
    simp [verify_otp, h, hused, Nat.not_le.mpr hatt, heq]
  · unfold verify_2fa
    cases hv : verify_otp now maxAttempts rec supplied with
    | mk r rec' => cases r <;> simp

/-- C9 witness: a code issued at minute 0 verified at minute 11 with the
right digits still fails as expired; the same record before expiry with the
counter at the bound fails as attempts-exceeded; a wrong guess below the
bound increments the counter; and `verify_2fa` rejects in each case. -/
theorem otp_verification_failure_taxonomy_witness :
    verify_otp 11 3 (generate_otp_record "123456" 0) "123456" =
      (.expiredOtp, generate_otp_record "123456" 0) ∧
    verify_otp 5 3 { otp := "123456", createdAt := 0, expiresAt := 10,
                     isUsed := false, attempts := 3 } "123456" =
      (.attemptsExceeded, { otp := "123456", createdAt := 0, expiresAt := 10,
                            isUsed := false, attempts := 3 }) ∧
    verify_otp 5 3 { otp := "123456", createdAt := 0, expiresAt := 10,
                     isUsed := false, attempts := 1 } "000000" =
      (.mismatch, { otp := "123456", createdAt := 0, expiresAt := 10,
                    isUsed := false, attempts := 2 }) :=
  ⟨(otp_verification_failure_taxonomy 11 3 (generate_otp_record "123456" 0) "123456").1
      "123456" 0 (by decide),
   (otp_verification_failure_taxonomy 5 3 _ "123456").2.2.2.1
      (by decide) (by decide) (by decide),
   (otp_verification_failure_taxonomy 5 3 _ "000000").2.2.2.2.1
      (by decide) (by decide) (by decide) (by decide)⟩

/-- The auto-generated payment reference format (first characters `land_`)
and the attempt reference format (first characters `myhouse_attempt_`)
never coincide. -/
theorem tx_ref_prefixes_differ (r : String) (t ts : Nat) (s : String) :
    payment_tx_ref r t ≠ attempt_tx_ref ts s := by
  intro h
  have h2 : (payment_tx_ref r t).data = (attempt_tx_ref ts s).data := by rw [h]
  simp [payment_tx_ref, attempt_tx_ref, String.data_append] at h2

/-- C10: the transaction reference that `initiate_land_payment` registers
with the gateway is the first Attempt's `flutterwave_tx_ref`, which always
differs from the Payment's own `flutterwave_tx_ref`; hence on any store
whose payments carry auto-generated payment references, the webhook
handlers — which look the Payment up by `flutterwave_tx_ref` equal to the
incoming `tx_ref` — find nothing for that reference and settle nothing. -/
theorem initiate_registers_attempt_ref_webhook_cannot_settle
    (paymentReference : String) (paymentTs attemptTs : Nat) (attemptHex : String)
    (amountK : Int) (paymentType : PaymentType) :
    (initiate_land_payment_records paymentReference paymentTs attemptTs attemptHex
        amountK paymentType).gatewayTxRef =
      (initiate_land_payment_records paymentReference paymentTs attemptTs attemptHex
        amountK paymentType).attempt.flutterwaveTxRef ∧
    (initiate_land_payment_records paymentReference paymentTs attemptTs attemptHex
        amountK paymentType).gatewayTxRef ≠
      (initiate_land_payment_records paymentReference paymentTs attemptTs attemptHex
        amountK paymentType).payment.flutterwaveTxRef ∧
    ∀ (st : WebhookStore) (d : WebhookEventData) (now : Nat),
      (∀ p ∈ st.payments, ∃ ref ts, p.flutterwaveTxRef = payment_tx_ref ref ts) →
      d.txRef = some (initiate_land_payment_records paymentReference paymentTs attemptTs
        attemptHex amountK paymentType).gatewayTxRef →
      handle_successful_payment d now st = (false, st) ∧
      handle_failed_payment d now st = (false, st) := by
  refine ⟨rfl, ?_, ?_⟩
  · intro h
    exact tx_ref_prefixes_differ paymentReference paymentTs attemptTs attemptHex h.symm
  · intro st d now hall hd
    have hnone : findPaymentByTxRef d.txRef st.payments = none := by
      unfold findPaymentByTxRef
      rw [List.find?_eq_none]
      intro p hp
      obtain ⟨ref, ts, href⟩ := hall p hp
      rw [hd, href]
      simp only [initiate_land_payment_records, decide_eq_true_eq, Option.some.injEq]
      intro hEq
      exact tx_ref_prefixes_differ ref ts attemptTs attemptHex hEq.symm
    constructor
    · simp [handle_successful_payment, hnone]
    · simp [handle_failed_payment, hnone]

/-- C10 witness: with a store holding one payment carrying an
auto-generated payment reference, a webhook for the attempt reference the
gateway was given settles nothing. -/
theorem initiate_registers_attempt_ref_webhook_cannot_settle_witness :
    handle_successful_payment
      { txRef := some (attempt_tx_ref 44 "ab12cd34"), transactionId := some 9,
        amountK := some 100, paymentTypeStr := some "card", processorResponse := none }
      50
      { payments := [{ paymentReference := "LAND-PAY-X", amountK := 100,
                       paymentType := .full_payment, paymentMethod := "",
                       status := .processingPay, isInstallment := false,
                       installmentNumber := none, paidDate := none,
                       flutterwaveTxRef := payment_tx_ref "LAND-PAY-X" 44,
                       flutterwaveTransactionId := none, flutterwaveResponse := none,
                       attempts := [] }], settlementEvents := 0 } =
      (false,
       { payments := [{ paymentReference := "LAND-PAY-X", amountK := 100,
                        paymentType := .full_payment, paymentMethod := "",
                        status := .processingPay, isInstallment := false,
                        installmentNumber := none, paidDate := none,
                        flutterwaveTxRef := payment_tx_ref "LAND-PAY-X" 44,
                        flutterwaveTransactionId := none, flutterwaveResponse := none,
                        attempts := [] }], settlementEvents := 0 }) := by
  refine ((initiate_registers_attempt_ref_webhook_cannot_settle
      "LAND-PAY-X" 44 44 "ab12cd34" 100 .full_payment).2.2 _ _ 50 ?_ rfl).1
  intro p hp
  simp only [List.mem_singleton] at hp
  exact ⟨"LAND-PAY-X", 44, by rw [hp]⟩

/-- C1 counterexample: a Payment already in the terminal `completed` state,
whose transaction reference was settled once (one side-effect batch fired),
is settled again by the webhook path: the store changes (the paid date is
re-stamped and the gateway blob overwritten) and the settlement side
effects fire a second time, refuting the no-op/first-writer-wins claim. -/
theorem settlement_not_idempotent_counterexample :
    completedPaymentRecord.status = .completedPay ∧
    (handle_successful_payment repeatWebhookData 9 settledOnceStore).2.settlementEvents = 2 ∧
    (handle_successful_payment repeatWebhookData 9 settledOnceStore).2 ≠ settledOnceStore := by
  refine ⟨rfl, by decide, by decide⟩

/-- C1 amended: the settlement transitions perform no terminal-status
guard.  Re-applying the successful settlement to a Payment that is already
`completed` leaves it `completed` but re-stamps the paid date and fires the
settlement side effects again — once per settlement call, on the webhook
path and on the redirect-verify path alike — so settling the same
transaction reference twice fires side effects twice. -/
theorem settlement_reapplied_without_terminal_guard :
    (∀ (st : WebhookStore) (p : LandPayment) (d : WebhookEventData) (now : Nat),
      findPaymentByTxRef d.txRef st.payments = some p →
      p.status = .completedPay →
      (handle_successful_payment d now st).1 = true ∧
      (handle_successful_payment d now st).2.settlementEvents = st.settlementEvents + 1) ∧
    (∀ (v : VerifySuccessData) (today now : Nat) (s : VerifyState),
      s.payment.status = .completedPay →
      v.providerStatus = "successful" →
      (verify_land_payment (.ok v) today now s).2.settlementEvents = s.settlementEvents + 1 ∧
      (verify_land_payment (.ok v) today now s).2.payment.status = .completedPay ∧
      (verify_land_payment (.ok v) today now s).2.payment.paidDate = some now) := by
  constructor
  · intro st p d now hfind _
    simp [handle_successful_payment, hfind]
  · intro v today now s _ hv
    simp [verify_land_payment, hv]

/-- C1 witness: the second webhook settlement of the already-completed
concrete payment reports success and brings the side-effect count to 2. -/
theorem settlement_reapplied_without_terminal_guard_witness :
    (handle_successful_payment repeatWebhookData 9 settledOnceStore).1 = true ∧
    (handle_successful_payment repeatWebhookData 9 settledOnceStore).2.settlementEvents = 1 + 1 :=
  (settlement_reapplied_without_terminal_guard).1 settledOnceStore completedPaymentRecord
    repeatWebhookData 9 (by decide) rfl

/-- C2 counterexample: `create_new_attempt` on a payment that already has
an in-flight (`initiated`) attempt does not fail with a conflict: it
returns a fresh attempt, after which the payment has two attempts in
non-terminal states. -/
theorem attempt_creation_no_conflict_counterexample :
    paymentWithInflightAttempt.attempts.countP
      (fun a => PaymentAttempt.nonTerminal a) = 1 ∧
    ((paymentWithInflightAttempt.create_new_attempt 2 "ff00aa11").2.attempts.countP
      (fun a => PaymentAttempt.nonTerminal a)) = 2 ∧
    (paymentWithInflightAttempt.create_new_attempt 2 "ff00aa11").1.astatus = .initiatedAt := by
  refine ⟨by decide, by decide, rfl⟩

/-- C2 amended: `create_new_attempt` performs no in-flight check at all: on
every payment it creates and returns a new `initiated` attempt with
sequence number `attempt_count + 1`, so the number of non-terminal attempts
grows by one whatever the states of the existing attempts. -/
theorem attempt_creation_unconditional :
    ∀ (p : LandPayment) (now : Nat) (randomHex : String),
      (p.create_new_attempt now randomHex).1.attemptNumber = p.attempt_count + 1 ∧
      (p.create_new_attempt now randomHex).1.astatus = .initiatedAt ∧
      (p.create_new_attempt now randomHex).2.attempts =
        (p.create_new_attempt now randomHex).1 :: p.attempts ∧
      ((p.create_new_attempt now randomHex).2.attempts.countP
        (fun a => PaymentAttempt.nonTerminal a)) =
        (p.attempts.countP (fun a => PaymentAttempt.nonTerminal a)) + 1 := by
  intro p now randomHex
  refine ⟨rfl, rfl, rfl, ?_⟩
  simp [LandPayment.create_new_attempt, PaymentAttempt.applySave,
    PaymentAttempt.nonTerminal, List.countP_cons]

/-- C4 counterexample: a webhook whose signature validates and whose
payload is well-formed, but whose transaction reference matches no stored
Payment, is rejected (`handle_webhook` returns `False`, causing upstream
retry) instead of the claimed success acknowledgement. -/
theorem unknown_reference_webhook_rejected_counterexample :
    handle_webhook (fun _ _ => "sig") "hash" (fun _ => "{}")
      { event := some "charge.completed",
        data := some { txRef := some "unknown_ref", transactionId := some 1,
                       amountK := some 100, paymentTypeStr := some "card",
                       processorResponse := none } }
      (some "sig") 3 { payments := [], settlementEvents := 0 } =
      (false, { payments := [], settlementEvents := 0 }) ∧
    verify_webhook_signature (fun _ _ => "sig") "hash" (fun _ => "{}")
      { event := some "charge.completed",
        data := some { txRef := some "unknown_ref", transactionId := some 1,
                       amountK := some 100, paymentTypeStr := some "card",
                       processorResponse := none } }
      (some "sig") = true := by
  exact ⟨by decide, by decide⟩

/-- C4 amended: for a webhook with a valid signature and well-formed
payload whose `charge.completed` or `charge.failed` reference matches no
stored Payment, `handle_webhook` returns failure — `DoesNotExist` makes
`_handle_successful_payment` and `_handle_failed_payment` return `False` —
so the upstream gateway will retry; only `transfer.*` and unhandled event
types are acknowledged without a matching Payment. -/
theorem unknown_reference_webhook_returns_failure
    (hmacSha256 : String → String → String) (webhookHash : String)
    (canonicalJson : WebhookBody → String) (body : WebhookBody)
    (signature : Option String) (now : Nat) (st : WebhookStore)
    (d : WebhookEventData)
    (hsig : verify_webhook_signature hmacSha256 webhookHash canonicalJson body signature = true)
    (hdata : body.data = some d)
    (hwf : validate_webhook_data body = true)
    (hnone : findPaymentByTxRef d.txRef st.payments = none) :
    (body.event = some "charge.completed" ∨ body.event = some "charge.failed") →
    handle_webhook hmacSha256 webhookHash canonicalJson body signature now st =
      (false, st) := by
  intro hev
  cases hev with
  | inl h =>
      simp [handle_webhook, hsig, hwf, h, hdata, handle_successful_payment, hnone]
  | inr h =>
      have hcc : body.event ≠ some "charge.completed" := by
        rw [h]; decide
      simp [handle_webhook, hsig, hwf, h, hcc, hdata, handle_failed_payment, hnone]

/-- C4 witness: a concrete valid-signature, well-formed `charge.failed`
webhook for an unknown reference on an empty store returns failure. -/
theorem unknown_reference_webhook_returns_failure_witness :
    handle_webhook (fun _ _ => "sig") "hash" (fun _ => "{}")
      { event := some "charge.failed",
        data := some { txRef := some "nobody", transactionId := none,
                       amountK := none, paymentTypeStr := none,
                       processorResponse := none } }
      (some "sig") 3 { payments := [], settlementEvents := 0 } =
      (false, { payments := [], settlementEvents := 0 }) :=
  unknown_reference_webhook_returns_failure (fun _ _ => "sig") "hash" (fun _ => "{}")
    _ (some "sig") 3 { payments := [], settlementEvents := 0 }
    { txRef := some "nobody", transactionId := none, amountK := none,
      paymentTypeStr := none, processorResponse := none }
    (by decide) rfl (by decide) (by decide) (Or.inr rfl)

/-- C5 counterexample: a `down_payment` purchase whose completed payments
reach the full land price (hence also the down-payment threshold) is
advanced to `completed`, not to `down_payment_paid` as the claim's
threshold rule states, because of the installment-completion clause. -/
theorem rollup_threshold_counterexample :
    downPaymentPurchase.paymentType = .down_payment ∧
    downPaymentPurchase.downPaymentAmountK ≤ total_completed_amount fullyPaidPayments ∧
    (update_land_purchase_status 7 fullyPaidPayments downPaymentPurchase
        availableLand).1.pstatus ≠ .down_payment_paid ∧
    (update_land_purchase_status 7 fullyPaidPayments downPaymentPurchase
        availableLand).1.pstatus = .completedP := by
  refine ⟨by decide, by decide, by decide, by decide⟩

set_option maxHeartbeats 3200000 in
/-- C5 amended: the purchase-level rollup, recomputed from the same set of
completed Payments, is idempotent, and it advances the purchase per the
plan thresholds — `completed` with the land `sold` at the full price for
`full_payment`; `down_payment_paid` at the down-payment amount for
`down_payment`; `reserved` for any positive amount for `reservation_fee` —
except that whenever an installment plan is set, the down payment is (or
becomes) paid and the completed total also reaches the full price, the
purchase instead becomes `completed` and the land `sold`. -/
theorem rollup_idempotent_and_thresholds (today : Nat) (payments : List LandPayment)
    (p : LandPurchase) (land : Land) :
    (update_land_purchase_status today payments
        (update_land_purchase_status today payments p land).1
        (update_land_purchase_status today payments p land).2 =
      update_land_purchase_status today payments p land) ∧
    (p.paymentType = .full_payment →
      p.totalLandPriceK ≤ total_completed_amount payments →
      (update_land_purchase_status today payments p land).1.pstatus = .completedP ∧
      (update_land_purchase_status today payments p land).2.lstatus = .sold) ∧
    (p.paymentType = .down_payment →
      p.downPaymentAmountK ≤ total_completed_amount payments →
      ¬ (p.installmentPlan.isSome ∧ p.totalLandPriceK ≤ total_completed_amount payments) →
      (update_land_purchase_status today payments p land).1.pstatus = .down_payment_paid) ∧
    (p.paymentType = .reservation_fee →
      0 < total_completed_amount payments →
      ¬ (p.installmentPlan.isSome ∧ p.downPaymentPaid = true ∧
          p.totalLandPriceK ≤ total_completed_amount payments) →
      (update_land_purchase_status today payments p land).1.pstatus = .reservedP) ∧
    (p.installmentPlan.isSome →
      (p.downPaymentPaid = true ∨
        (p.paymentType = .down_payment ∧
          p.downPaymentAmountK ≤ total_completed_amount payments)) →
      p.totalLandPriceK ≤ total_completed_amount payments →
      (update_land_purchase_status today payments p land).1.pstatus = .completedP ∧
      (update_land_purchase_status today payments p land).2.lstatus = .sold) := by
  obtain ⟨pt, ps, price, dpAmt, dpp, ti, cd, ip⟩ := p
  obtain ⟨ls, lp⟩ := land
  cases pt <;> cases dpp <;> cases ip <;>
    by_cases h1 : price ≤ total_completed_amount payments <;>
    by_cases h2 : dpAmt ≤ total_completed_amount payments <;>
    by_cases h3 : (0:Int) < total_completed_amount payments <;>
    refine ⟨?_, ?_, ?_, ?_, ?_⟩ <;>
    simp [update_land_purchase_status, h1, h2, h3]

/-- C6 counterexample: in the 6-month 30%-down scenario on 50,000,000, the
schedule amounts are the 2-decimal-place quantization of 35,000,000 / 6 =
5,833,333.33̅, so the six equal rows sum to 34,999,999.98, not exactly
35,000,000 as claimed. -/
theorem installment_schedule_sum_counterexample :
    (scenarioSettled.schedule.map (fun r => r.amountK)).sum = 3499999998 ∧
    (scenarioSettled.schedule.map (fun r => r.amountK)).sum ≠ 3500000000 := by
  refine ⟨by decide, by decide⟩

/-- C6 amended: when the 15,000,000 down payment settles against the
6-month 30%-down installment plan on a 50,000,000 purchase, the Purchase
status becomes `down_payment_paid` and exactly 6 PaymentSchedule rows are
created, all with the equal amount 5,833,333.33 — the kobo-quantized value
of 35,000,000 / 6 — summing to 34,999,999.98, two kobo short of
35,000,000. -/
theorem installment_schedule_generation :
    scenarioSettled.purchase.pstatus = .down_payment_paid ∧
    scenarioSettled.purchase.downPaymentPaid = true ∧
    downPaymentPurchase.downPaymentAmountK = 1500000000 ∧
    scenarioSettled.schedule.length = 6 ∧
    (scenarioSettled.schedule.all (fun r => r.amountK = 583333333)) = true ∧
    (scenarioSettled.schedule.map (fun r => r.amountK)).sum = 3499999998 := by
  refine ⟨by decide, by decide, by decide, by decide, by decide, by decide⟩

/-- C7 counterexample: paying installment 1, settling it, paying
installment 1 again and settling again yields two distinct Payments for
the same `(purchase, installment_number)` pair, both `completed`, while the
schedule row remains unpaid — completing an installment never marks its
row paid, so the second payment is not refused. -/
theorem installment_double_completion_counterexample :
    (doubleInstallmentTrace.map (fun t =>
      (t.1.status, t.2.1.status, t.1.installmentNumber, t.2.1.installmentNumber,
       t.1.paymentReference == t.2.1.paymentReference,
       t.2.2.all (fun r => r.isPaid)))) =
      some (.completedPay, .completedPay, some 1, some 1, false, false) := by
  rfl

/-- C7 amended: `pay_installment` refuses a new installment payment only
when the schedule row's `is_paid` flag is already set; when the flag is
clear it accepts the payment regardless of existing completed Payments for
the pair, and settling a completed installment Payment changes neither the
schedule (no row is marked paid) nor the purchase — so several Payments for
one `(purchase, installment_number)` pair can reach `completed`. -/
theorem installment_payment_gating (purchase : LandPurchase) (row : PaymentSchedule)
    (gatewayOk : Bool) (ref : String) (ts : Nat) :
    (row.isPaid = true → purchase.downPaymentPaid = true →
      pay_installment purchase row gatewayOk ref ts = .alreadyPaid) ∧
    (purchase.downPaymentPaid = true → row.isPaid = false →
      ∃ p, pay_installment purchase row true ref ts = .initiatedOk p ∧
        p.installmentNumber = some row.installmentNumber ∧
        p.status = .initiatedPay) ∧
    (∀ (v : VerifySuccessData) (today now : Nat) (s : VerifyState),
      s.payment.paymentType = .installment → v.providerStatus = "successful" →
      (verify_land_payment (.ok v) today now s).2.schedule = s.schedule ∧
      (verify_land_payment (.ok v) today now s).2.purchase = s.purchase ∧
      (verify_land_payment (.ok v) today now s).2.payment.status = .completedPay) := by
  refine ⟨?_, ?_, ?_⟩
  · intro hrow hdp
    simp [pay_installment, hrow, hdp]
  · intro hdp hrow
    exact ⟨{ paymentReference := ref, amountK := row.amountK,
             paymentType := .installment, paymentMethod := "",
             status := .initiatedPay, isInstallment := true,
             installmentNumber := some row.installmentNumber, paidDate := none,
             flutterwaveTxRef := payment_tx_ref ref ts,
             flutterwaveTransactionId := none, flutterwaveResponse := none,
             attempts := [] },
           by simp [pay_installment, hdp, hrow], rfl, rfl⟩
  · intro v today now s hpt hv
    refine ⟨?_, ?_, ?_⟩ <;> simp [verify_land_payment, hv, hpt]

/-- C7 witness: an installment whose schedule row is marked paid is
refused, and settling a concrete installment payment leaves the schedule
untouched. -/
theorem installment_payment_gating_witness :
    pay_installment paidPurchase
      { installmentNumber := 1, dueDate := 40, amountK := 583333333,
        isPaid := true, paidDate := none } true "LAND-PAY-W" 9 = .alreadyPaid :=
  (installment_payment_gating paidPurchase
    { installmentNumber := 1, dueDate := 40, amountK := 583333333,
      isPaid := true, paidDate := none } true "LAND-PAY-W" 9).1 rfl rfl

/-- C8 counterexample: a charge-initiation request lacking the
`customer_email` key entirely (a missing required customer field) is
rejected before any network call — even a healthy gateway is never
consulted — but with code `service_unavailable` (the `KeyError` falls into
the generic handler), not the claimed `validation_error`. -/
theorem missing_customer_key_counterexample :
    initialize_payment (.hosted "https://pay" "FLW1")
      { txRef := some "tx1", amount := some (.num 5000), customerEmail := none,
        customerName := some "Jane Doe", customerPhone := none,
        redirectUrl := some "https://x/verify" } =
      (.errInit .service_unavailable, false) ∧
    InitCode.service_unavailable ≠ InitCode.validation_error := by
  exact ⟨by decide, by decide⟩

/-- C8 amended: every invalid charge-initiation request is rejected before
any network call; a non-positive, above-ceiling or unparseable amount, and
an empty or `@`-less present customer field, yield `validation_error`,
while a request whose `customer_email` or `customer_name` key is absent
altogether is rejected with `service_unavailable` instead. -/
theorem charge_initiation_validation (gw : GatewayInitResponse) (pd : PaymentData)
    (t : String) (ht : pd.txRef = some t) (htne : t ≠ "") :
    (∀ q : ℚ, pd.amount = some (.num q) → (q ≤ 0 ∨ 100000000 < q) →
      initialize_payment gw pd = (.errInit .validation_error, false)) ∧
    (pd.amount = some .unparseable →
      initialize_payment gw pd = (.errInit .validation_error, false)) ∧
    (∀ (q : ℚ) (e n : String),
      pd.amount = some (.num q) → 0 < q → q ≤ 100000000 →
      pd.customerEmail = some e → pd.customerName = some n →
      (e = "" ∨ n = "" ∨ ¬ e.data.contains '@') →
      initialize_payment gw pd = (.errInit .validation_error, false)) ∧
    (∀ q : ℚ, pd.amount = some (.num q) → 0 < q → q ≤ 100000000 →
      (pd.customerEmail = none ∨ pd.customerName = none) →
      initialize_payment gw pd = (.errInit .service_unavailable, false)) := by
  refine ⟨?_, ?_, ?_, ?_⟩
  · intro q ha hq
    rcases hq with hq | hq
    · simp [initialize_payment, ht, htne, ha, hq]
    · have hq0 : ¬ q ≤ 0 := not_le.mpr (lt_trans (by norm_num) hq)
      simp [initialize_payment, ht, htne, ha, hq0, hq]
  · intro ha
    simp [initialize_payment, ht, htne, ha]
  · intro q e n ha h0 h1 he hn hbad
    have hq0 : ¬ q ≤ 0 := not_le.mpr h0
    have hq1 : ¬ (100000000:ℚ) < q := not_lt.mpr h1
    rcases hbad with hb | hb | hb
    · simp [initialize_payment, ht, htne, ha, hq0, hq1, he, hn, hb]
    · simp [initialize_payment, ht, htne, ha, hq0, hq1, he, hn, hb]
    · by_cases hem : e = "" ∨ n = ""
      · rcases hem with h | h <;>
          simp [initialize_payment, ht, htne, ha, hq0, hq1, he, hn, h]
      · push_neg at hem
        have hb' : ¬ ('@' ∈ e.data) := by simpa using hb
        simp [initialize_payment, ht, htne, ha, hq0, hq1, he, hn, hem.1, hem.2, hb']
  · intro q ha h0 h1 hmiss
    have hq0 : ¬ q ≤ 0 := not_le.mpr h0
    have hq1 : ¬ (100000000:ℚ) < q := not_lt.mpr h1
    cases hmail : pd.customerEmail with
    | none => simp [initialize_payment, ht, htne, ha, hq0, hq1, hmail]
    | some e =>
        rcases hmiss with h | h
        · rw [hmail] at h; cases h
        · simp [initialize_payment, ht, htne, ha, hq0, hq1, hmail, h]

/-- C8 witness: a negative amount is rejected as `validation_error` with no
network call, and the ill-formed email `janedoe.example` likewise. -/
theorem charge_initiation_validation_witness :
    initialize_payment (.hosted "https://pay" "FLW1")
      { txRef := some "tx2", amount := some (.num (-5)),
        customerEmail := some "jane@example.com", customerName := some "Jane",
        customerPhone := none, redirectUrl := some "https://x" } =
      (.errInit .validation_error, false) ∧
    initialize_payment (.hosted "https://pay" "FLW1")
      { txRef := some "tx3", amount := some (.num 5000),
        customerEmail := some "janedoe.example", customerName := some "Jane",
        customerPhone := none, redirectUrl := some "https://x" } =
      (.errInit .validation_error, false) :=
  ⟨(charge_initiation_validation (.hosted "https://pay" "FLW1") _ "tx2" rfl
      (by decide)).1 (-5) rfl (Or.inl (by norm_num)),
   (charge_initiation_validation (.hosted "https://pay" "FLW1") _ "tx3" rfl
      (by decide)).2.2.1 5000 "janedoe.example" "Jane" rfl (by norm_num) (by norm_num)
      rfl rfl (Or.inr (Or.inr (by decide)))⟩

end RealEstate
